import Mathlib

/-!
Formal model of the fact-checking pipeline in `src/fanekews.py`.

The program is a chat fact-checking bot built from four parts:
an evidence retriever (`search_web`), a verdict cache (`fact_cache`),
a per-user rate limiter (`user_last_request` plus the gate inlined in
`handle_message`), and the orchestrator (`fact_check`).

Modelling conventions:
* Python strings are `String`; `str.strip()` is `pyStrip` (structural
  recursion over the character list, stripping the ASCII whitespace
  recognised by `Char.isWhitespace`); slicing `s[:n]` is `takeChars`;
  `"sep".join xs` is `joinSep`.
* `time.time()` values are rationals (`ℚ`), the executable stand-in for
  Python floats; only subtraction and order comparison are used.
* The two remote providers are opaque behaviours passed in explicitly:
  the search provider is a function from the query string to
  `Except String SearchResponse` (an exception or a parsed response) and
  the model provider is an `Except String String`.
* The mutable module-level dicts become explicit state threaded through
  the functions: the verdict cache is an association list keyed by the
  exact claim string (a new binding shadows an older one, matching dict
  overwrite), and the rate state is an association list from user id to
  the last accepted timestamp, absent keys reading as `0` exactly as
  `defaultdict(float)` does.
* Calls to the providers are recorded in the result records
  (`searchQuery`, `modelCalled`, `orchCalled`) so that "the provider was
  not invoked" is an observable proposition.
-/

/-- Constant `MAX_INPUT_LEN = 500` from `src/fanekews.py` line 46. -/
def MAX_INPUT_LEN : Nat := 500

/-- Constant `RATE_LIMIT_SECONDS = 5` from `src/fanekews.py` line 47. -/
def RATE_LIMIT_SECONDS : ℚ := 5

/-- Constant `MAX_EVIDENCE_LEN = 6000` from `src/fanekews.py` line 48. -/
def MAX_EVIDENCE_LEN : Nat := 6000

/-- Drop leading whitespace characters from a character list. -/
def stripLeftChars : List Char → List Char
  | [] => []
  | c :: cs => if c.isWhitespace then stripLeftChars cs else c :: cs

/-- Embedding of Python `str.strip()`: drop leading and trailing whitespace. -/
def pyStrip (s : String) : String :=
  String.mk ((stripLeftChars ((stripLeftChars s.data).reverse)).reverse)

/-- Embedding of Python `s[:n]` slicing on strings (by code points). -/
def takeChars (s : String) (n : Nat) : String :=
  String.mk (s.data.take n)

/-- Embedding of Python `sep.join xs`. -/
def joinSep (sep : String) : List String → String
  | [] => ""
  | [x] => x
  | x :: y :: xs => x ++ sep ++ joinSep sep (y :: xs)

/-- One result entry of the search provider's response: optional `url`
and `content` fields (`None` or absent is `none`; the empty string is a
falsy value distinct from `none`, as in Python). -/
structure SearchResult where
  url : Option String
  content : Option String
deriving DecidableEq

/-- The search provider's parsed response: an optional aggregated
`answer` and a list of results (`src/fanekews.py` lines 71-77). -/
structure SearchResponse where
  answer : Option String
  results : List SearchResult
deriving DecidableEq

/-- The `Summary:` part contributed by a truthy `answer` field
(`src/fanekews.py` lines 82-83). -/
def summaryParts (answer : Option String) : List String :=
  match answer with
  | some a => if a = "" then [] else ["Summary: " ++ a]
  | none => []

/-- The parts contributed by truthy `content` fields, each stripped
(`src/fanekews.py` lines 85-93). -/
def contentParts (results : List SearchResult) : List String :=
  results.filterMap fun r =>
    match r.content with
    | some c => if c = "" then none else some (pyStrip c)
    | none => none

/-- The url list collected from truthy `url` fields, in order, duplicates
kept (`src/fanekews.py` lines 85-90). -/
def collectUrls (results : List SearchResult) : List String :=
  results.filterMap fun r =>
    match r.url with
    | some u => if u = "" then none else some u
    | none => none

/-- The joined evidence string before the length cap
(`src/fanekews.py` line 95). -/
def joinedEvidence (resp : SearchResponse) : String :=
  joinSep "\n\n---\n\n" (summaryParts resp.answer ++ contentParts resp.results)

/-- The literal truncation marker appended on overflow
(`src/fanekews.py` line 98). -/
def truncMarker : String := "\n... [truncated]"

/-- The length cap applied to the final joined evidence string
(`src/fanekews.py` lines 97-98). -/
def capEvidence (e : String) : String :=
  if MAX_EVIDENCE_LEN < e.length then takeChars e MAX_EVIDENCE_LEN ++ truncMarker else e

/-- Embedding of `search_web` (`src/fanekews.py` lines 67-104): call the
search provider on the query; on success assemble, cap and return the
evidence with the url list; on any exception return the empty bundle. -/
def search_web (tavily : String → Except String SearchResponse) (query : String) :
    String × List String :=
  match tavily query with
  | Except.error _ => ("", [])
  | Except.ok r => (capEvidence (joinedEvidence r), collectUrls r.results)

/-- Embedding of Python `html.escape` on one character: the five special
characters become their entity references (written as character lists;
`Char.ofNat 39` is the apostrophe), every other character passes through. -/
def escapeChar (c : Char) : List Char :=
  if c = '&' then ['&', 'a', 'm', 'p', ';']
  else if c = '<' then ['&', 'l', 't', ';']
  else if c = '>' then ['&', 'g', 't', ';']
  else if c = '"' then ['&', 'q', 'u', 'o', 't', ';']
  else if c = Char.ofNat 39 then ['&', '#', 'x', '2', '7', ';']
  else [c]

/-- Embedding of Python `html.escape` on a character list. -/
def escapeList : List Char → List Char
  | [] => []
  | c :: cs => escapeChar c ++ escapeList cs

/-- Embedding of Python `html.escape` on a string. -/
def escape (s : String) : String :=
  String.mk (escapeList s.data)

/-- The fixed insufficient-evidence verdict text
(`src/fanekews.py` lines 116-120). -/
def insufficientVerdict : String :=
  "<b>Verdict:</b> Insufficient Evidence\n<b>Confidence:</b> 0%\n<b>Explanation:</b> No reliable sources found."

/-- The fixed model-failure message (`src/fanekews.py` line 141). -/
def aiFailedMsg : String := "AI processing failed. Please try again later."

/-- The bullet written before each source url (`src/fanekews.py` line 146;
the source file stores the bullet as the three bytes rendered as these
three characters). -/
def bulletMark : String := "â€¢ "

/-- The sources section appended to a successful verdict when the url
list is non-empty (`src/fanekews.py` lines 144-146). -/
def sourcesBlock (urls : List String) : String :=
  "\n\n<b>Sources:</b>\n" ++ joinSep "\n" (urls.map fun u => bulletMark ++ escape u)

/-- The rendered verdict text of a successful model call
(`src/fanekews.py` lines 137-146): the stripped model output, with the
sources section appended exactly when the url list is non-empty. -/
def renderVerdict (outText : String) (urls : List String) : String :=
  if urls = [] then pyStrip outText else pyStrip outText ++ sourcesBlock urls

/-- The verdict cache `fact_cache`, an exact-string-keyed map modelled as
an association list; a fresh cons shadows any older binding. -/
abbrev Cache := List (String × String)

/-- Behaviour of the two remote providers during one `fact_check` call. -/
structure Env where
  tavily : String → Except String SearchResponse
  openai : Except String String

/-- Observable outcome of one `fact_check` call: the returned text, the
cache after the call, the query sent to the search provider (`none` when
the search provider was not invoked), and whether the model provider was
invoked. -/
structure FCOut where
  result : String
  cache : Cache
  searchQuery : Option String
  modelCalled : Bool
deriving DecidableEq

/-- Embedding of `fact_check` (`src/fanekews.py` lines 107-151): cache
lookup, evidence retrieval, insufficient-evidence short-circuit, model
call, source appending, cache store. -/
def fact_check (cache : Cache) (claim : String) (env : Env) : FCOut :=
  match List.lookup claim cache with
  | some v => ⟨v, cache, none, false⟩
  | none =>
    let eu := search_web env.tavily claim
    if pyStrip eu.1 = "" then
      ⟨insufficientVerdict, cache, some claim, false⟩
    else
      match env.openai with
      | Except.error _ => ⟨aiFailedMsg, cache, some claim, true⟩
      | Except.ok outText =>
        ⟨renderVerdict outText eu.2,
          (claim, renderVerdict outText eu.2) :: cache, some claim, true⟩

/-- The rate state `user_last_request`: user id to last accepted
timestamp, modelled as an association list read with default `0`
(`defaultdict(float)`, `src/fanekews.py` line 50). -/
abbrev RateState := List (Nat × ℚ)

/-- Read a user's last accepted timestamp; absent entries read as the
epoch `0`, as `defaultdict(float)` does. -/
def getLast (s : RateState) (u : Nat) : ℚ :=
  (List.lookup u s).getD 0

/-- Record `now` as a user's last accepted timestamp. -/
def setLast (s : RateState) (u : Nat) (now : ℚ) : RateState :=
  (u, now) :: s

/-- The rate-limit gate inlined in `handle_message`
(`src/fanekews.py` lines 176-183): reject and leave the state unchanged
when less than `RATE_LIMIT_SECONDS` elapsed since the user's recorded
timestamp, otherwise allow and record `now`. -/
def rl_allow (s : RateState) (u : Nat) (now : ℚ) : Bool × RateState :=
  if now - getLast s u < RATE_LIMIT_SECONDS then (false, s)
  else (true, setLast s u now)

/-- Rejection message for an empty claim (`src/fanekews.py` line 167). -/
def invalidClaimMsg : String := "Please send a valid claim."

/-- Rejection message for an over-long claim (`src/fanekews.py`
lines 171-173, with `MAX_INPUT_LEN = 500` interpolated). -/
def tooLongMsg : String := "Message too long (max 500 characters)."

/-- Rejection message of the rate-limit gate (`src/fanekews.py`
lines 178-180). -/
def rateLimitMsg : String := "Please wait before sending another request."

/-- The fixed timeout message (`src/fanekews.py` line 201). -/
def timeoutMsg : String := " Request timed out. Please try again."

/-- The fixed unexpected-error message (`src/fanekews.py` line 204). -/
def unexpectedErrMsg : String := " Error processing request."

/-- A reply observed by the user: a direct rejection reply, or the final
edit of the placeholder message. -/
inductive HReply where
  | sent (msg : String)
  | edited (msg : String)
deriving DecidableEq

/-- Behaviour of the wrapped orchestrator call seen by `handle_message`:
it completes under the given provider behaviour, hits the 40-second
timeout, or raises an unexpected error. -/
inductive FCBehavior where
  | completes (env : Env)
  | timesOut
  | unexpectedErr

/-- Observable outcome of one `handle_message` call: rate state and
cache after the call, the reply shown to the user, and whether the
orchestrator (`fact_check`) was invoked. -/
structure HOut where
  rate : RateState
  cache : Cache
  reply : HReply
  orchCalled : Bool

/-- Embedding of `handle_message` (`src/fanekews.py` lines 161-204):
strip the message text, validate, apply the rate-limit gate, record the
timestamp, then run the orchestrator under the timeout wrapper. -/
def handle_message (rate : RateState) (cache : Cache) (userId : Nat)
    (text : Option String) (now : ℚ) (beh : FCBehavior) : HOut :=
  let claim := pyStrip (text.getD "")
  if claim = "" then ⟨rate, cache, HReply.sent invalidClaimMsg, false⟩
  else if MAX_INPUT_LEN < claim.length then ⟨rate, cache, HReply.sent tooLongMsg, false⟩
  else if now - getLast rate userId < RATE_LIMIT_SECONDS then
    ⟨rate, cache, HReply.sent rateLimitMsg, false⟩
  else
    let rate2 := setLast rate userId now
    match beh with
    | FCBehavior.completes env =>
      let o := fact_check cache claim env
      ⟨rate2, o.cache, HReply.edited o.result, true⟩
    | FCBehavior.timesOut => ⟨rate2, cache, HReply.edited timeoutMsg, true⟩
    | FCBehavior.unexpectedErr => ⟨rate2, cache, HReply.edited unexpectedErrMsg, true⟩
/-! Observation helpers: substring containment and line structure of
rendered texts, used to state what a verdict does or does not contain. -/

/-- Is `pat` a leading piece of `l`? -/
def leadsWith : List Char → List Char → Bool
  | [], _ => true
  | _ :: _, [] => false
  | p :: ps, c :: cs => p == c && leadsWith ps cs

/-- Does the character list contain `pat` as a contiguous run? -/
def hasSubChars (pat : List Char) : List Char → Bool
  | [] => leadsWith pat []
  | c :: cs => leadsWith pat (c :: cs) || hasSubChars pat cs

/-- Does `s` contain `pat` as a contiguous substring? -/
def hasSub (s pat : String) : Bool :=
  hasSubChars pat.data s.data

/-- Split a character list at newline characters: the line structure of
a rendered text. -/
def splitNL : List Char → List (List Char)
  | [] => [[]]
  | c :: cs =>
    if c = '\n' then [] :: splitNL cs
    else
      match splitNL cs with
      | [] => [[c]]
      | h :: t => (c :: h) :: t

/-! Concrete provider behaviours and inputs used to instantiate the
theorems below on closed values. -/

/-- Behaviour where the search provider raises on every query. -/
def envSearchDown : Env :=
  ⟨fun _ => Except.error "network down", Except.ok "unused"⟩

/-- A search response whose single result carries a url but no content,
so the assembled evidence text is empty while the url list is not. -/
def respUrlOnly : SearchResponse :=
  ⟨none, [⟨some "https://example.com/a", none⟩]⟩

/-- Behaviour where the search provider returns `respUrlOnly`. -/
def envUrlOnly : Env :=
  ⟨fun _ => Except.ok respUrlOnly, Except.ok "unused"⟩

/-- A search response with no answer and no results at all. -/
def respNoResults : SearchResponse := ⟨none, []⟩

/-- Behaviour where the search provider returns `respNoResults`. -/
def envNoResults : Env :=
  ⟨fun _ => Except.ok respNoResults, Except.ok "unused"⟩

/-- A search response with one contentful result carrying a url. -/
def respMoon : SearchResponse :=
  ⟨none, [⟨some "https://example.com/moon", some "The moon is composed of rock and dust."⟩]⟩

/-- Behaviour where search succeeds with `respMoon` and the model
returns a verdict text. -/
def envMoon : Env :=
  ⟨fun _ => Except.ok respMoon, Except.ok "<b>Verdict:</b> False"⟩

/-- A search response whose aggregated answer alone is the evidence. -/
def respSummaryOnly : SearchResponse := ⟨some "Some gathered evidence.", []⟩

/-- Behaviour where search succeeds with `respSummaryOnly` and the model
call raises. -/
def envModelDown : Env :=
  ⟨fun _ => Except.ok respSummaryOnly, Except.error "model down"⟩

/-- Behaviour where search succeeds with `respSummaryOnly` and the
model's successful output is, verbatim, the fixed failure message. -/
def envOutputsFailText : Env :=
  ⟨fun _ => Except.ok respSummaryOnly, Except.ok "AI processing failed. Please try again later."⟩

/-- A search response whose aggregated answer is 6100 characters long,
so the joined evidence exceeds the 6000-character cap. -/
def respLong : SearchResponse :=
  ⟨some (String.mk (List.replicate 6100 'a')), []⟩

/-- A message of 502 raw characters that strips to 499 characters. -/
def longRawText : String :=
  String.mk (List.replicate 499 'a') ++ "   "

/-! Equation lemmas for the branches of `fact_check` and `handle_message`. -/
theorem fact_check_hit {cache : Cache} {claim v : String} (env : Env)
    (h : List.lookup claim cache = some v) :
    fact_check cache claim env = ⟨v, cache, none, false⟩ := by
  simp [fact_check, h]

theorem fact_check_insuff_eq {cache : Cache} {claim : String} {env : Env}
    (hmiss : List.lookup claim cache = none)
    (hempty : pyStrip (search_web env.tavily claim).1 = "") :
    fact_check cache claim env = ⟨insufficientVerdict, cache, some claim, false⟩ := by
  simp [fact_check, hmiss, hempty]

theorem fact_check_model_err {cache : Cache} {claim : String} {env : Env} {e : String}
    (hmiss : List.lookup claim cache = none)
    (hne : pyStrip (search_web env.tavily claim).1 ≠ "")
    (herr : env.openai = Except.error e) :
    fact_check cache claim env = ⟨aiFailedMsg, cache, some claim, true⟩ := by
  simp [fact_check, hmiss, hne, herr]

theorem fact_check_success {cache : Cache} {claim : String} {env : Env} {out : String}
    (hmiss : List.lookup claim cache = none)
    (hne : pyStrip (search_web env.tavily claim).1 ≠ "")
    (hok : env.openai = Except.ok out) :
    fact_check cache claim env =
      ⟨renderVerdict out (search_web env.tavily claim).2,
        (claim, renderVerdict out (search_web env.tavily claim).2) :: cache,
        some claim, true⟩ := by
  simp [fact_check, hmiss, hne, hok]

example : pyStrip (search_web (fun _ => Except.error "x") "c").1 = "" := by decide
example : (5:ℚ) ≤ 10 - getLast [] 0 := by norm_num [getLast]
example : getLast [(1, (10:ℚ))] 1 = 10 := by decide

theorem handle_message_empty {rate : RateState} {cache : Cache} {userId : Nat}
    {text : Option String} (now : ℚ) (beh : FCBehavior)
    (h : pyStrip (text.getD "") = "") :
    handle_message rate cache userId text now beh =
      ⟨rate, cache, HReply.sent invalidClaimMsg, false⟩ := by
  simp [handle_message, h]

theorem handle_message_tooLong {rate : RateState} {cache : Cache} {userId : Nat}
    {text : Option String} (now : ℚ) (beh : FCBehavior)
    (h0 : pyStrip (text.getD "") ≠ "")
    (h1 : MAX_INPUT_LEN < (pyStrip (text.getD "")).length) :
    handle_message rate cache userId text now beh =
      ⟨rate, cache, HReply.sent tooLongMsg, false⟩ := by
  simp [handle_message, h0, h1]

theorem handle_message_rateReject {rate : RateState} {cache : Cache} {userId : Nat}
    {text : Option String} {now : ℚ} (beh : FCBehavior)
    (h0 : pyStrip (text.getD "") ≠ "")
    (h1 : ¬ MAX_INPUT_LEN < (pyStrip (text.getD "")).length)
    (h2 : now - getLast rate userId < RATE_LIMIT_SECONDS) :
    handle_message rate cache userId text now beh =
      ⟨rate, cache, HReply.sent rateLimitMsg, false⟩ := by
  simp [handle_message, h0, h1, h2]

theorem handle_message_completes {rate : RateState} {cache : Cache} {userId : Nat}
    {text : Option String} {now : ℚ} (env : Env)
    (h0 : pyStrip (text.getD "") ≠ "")
    (h1 : ¬ MAX_INPUT_LEN < (pyStrip (text.getD "")).length)
    (h2 : ¬ now - getLast rate userId < RATE_LIMIT_SECONDS) :
    handle_message rate cache userId text now (FCBehavior.completes env) =
      ⟨setLast rate userId now,
       (fact_check cache (pyStrip (text.getD "")) env).cache,
       HReply.edited (fact_check cache (pyStrip (text.getD "")) env).result, true⟩ := by
  simp [handle_message, h0, h1, h2]

theorem handle_message_timesOut {rate : RateState} {cache : Cache} {userId : Nat}
    {text : Option String} {now : ℚ}
    (h0 : pyStrip (text.getD "") ≠ "")
    (h1 : ¬ MAX_INPUT_LEN < (pyStrip (text.getD "")).length)
    (h2 : ¬ now - getLast rate userId < RATE_LIMIT_SECONDS) :
    handle_message rate cache userId text now FCBehavior.timesOut =
      ⟨setLast rate userId now, cache, HReply.edited timeoutMsg, true⟩ := by
  simp [handle_message, h0, h1, h2]

theorem handle_message_unexpected {rate : RateState} {cache : Cache} {userId : Nat}
    {text : Option String} {now : ℚ}
    (h0 : pyStrip (text.getD "") ≠ "")
    (h1 : ¬ MAX_INPUT_LEN < (pyStrip (text.getD "")).length)
    (h2 : ¬ now - getLast rate userId < RATE_LIMIT_SECONDS) :
    handle_message rate cache userId text now FCBehavior.unexpectedErr =
      ⟨setLast rate userId now, cache, HReply.edited unexpectedErrMsg, true⟩ := by
  simp [handle_message, h0, h1, h2]
theorem data_append (s t : String) : (s ++ t).data = s.data ++ t.data := rfl

theorem splitNL_ne_nil (l : List Char) : splitNL l ≠ [] := by
  induction l with
  | nil => simp [splitNL]
  | cons c cs IH =>
    by_cases h : c = '\n'
    · simp [splitNL, h]
    · simp only [splitNL, if_neg h]
      cases hs : splitNL cs with
      | nil => simp
      | cons a t => simp

theorem splitNL_cons_newline (cs : List Char) : splitNL ('\n' :: cs) = [] :: splitNL cs := by
  simp [splitNL]

theorem splitNL_no_newline (l : List Char) (h : ∀ c ∈ l, c ≠ '\n') : splitNL l = [l] := by
  induction l with
  | nil => rfl
  | cons c cs IH =>
    have hc : ¬ c = '\n' := h c (List.mem_cons_self c cs)
    have hcs : splitNL cs = [cs] := IH fun d hd => h d (List.mem_cons_of_mem c hd)
    simp [splitNL, hc, hcs]

theorem splitNL_append (a b : List Char) (ha : ∀ c ∈ a, c ≠ '\n') :
    splitNL (a ++ b) = (a ++ (splitNL b).headI) :: (splitNL b).tail := by
  induction a with
  | nil =>
    cases hb : splitNL b with
    | nil => exact absurd hb (splitNL_ne_nil b)
    | cons h t => simp [hb]
  | cons c a IH =>
    have hc : ¬ c = '\n' := ha c (List.mem_cons_self c a)
    have ha' : ∀ d ∈ a, d ≠ '\n' := fun d hd => ha d (List.mem_cons_of_mem c hd)
    simp only [List.cons_append, splitNL, if_neg hc]
    rw [show a.append b = a ++ b from rfl, IH ha']

theorem splitNL_joinSepNL (xs : List String) (hxs : xs ≠ [])
    (h : ∀ x ∈ xs, ∀ c ∈ x.data, c ≠ '\n') :
    splitNL (joinSep "\n" xs).data = xs.map String.data := by
  induction xs with
  | nil => cases hxs rfl
  | cons x xs IH =>
    cases xs with
    | nil =>
      have hx : ∀ c ∈ x.data, c ≠ '\n' := h x (List.mem_cons_self x [])
      simp [joinSep, splitNL_no_newline x.data hx]
    | cons y ys =>
      have hx : ∀ c ∈ x.data, c ≠ '\n' := h x (by simp)
      have hrest : ∀ z ∈ y :: ys, ∀ c ∈ z.data, c ≠ '\n' := fun z hz => h z (by simp [hz])
      have hIH : splitNL (joinSep "\n" (y :: ys)).data = (y :: ys).map String.data :=
        IH (by simp) hrest
      have hdata : (x ++ "\n" ++ joinSep "\n" (y :: ys)).data
          = x.data ++ ('\n' :: (joinSep "\n" (y :: ys)).data) := by
        rw [data_append, data_append]
        simp
      rw [show joinSep "\n" (x :: y :: ys) = x ++ "\n" ++ joinSep "\n" (y :: ys) from rfl,
        hdata, splitNL_append x.data _ hx, splitNL_cons_newline, hIH]
      simp

theorem mem_escapeChar_ne_newline (c : Char) (hc : c ≠ '\n') :
    ∀ d ∈ escapeChar c, d ≠ '\n' := by
  intro d hd
  unfold escapeChar at hd
  split at hd
  · fin_cases hd <;> decide
  · split at hd
    · fin_cases hd <;> decide
    · split at hd
      · fin_cases hd <;> decide
      · split at hd
        · fin_cases hd <;> decide
        · split at hd
          · fin_cases hd <;> decide
          · rw [List.mem_singleton] at hd; rw [hd]; exact hc

theorem escapeList_no_newline (l : List Char) (h : ∀ c ∈ l, c ≠ '\n') :
    ∀ c ∈ escapeList l, c ≠ '\n' := by
  induction l with
  | nil => simp [escapeList]
  | cons c cs IH =>
    intro d hd
    rw [show escapeList (c :: cs) = escapeChar c ++ escapeList cs from rfl,
      List.mem_append] at hd
    rcases hd with h1 | h2
    · exact mem_escapeChar_ne_newline c (h c (by simp)) d h1
    · exact IH (fun e he => h e (by simp [he])) d h2

theorem splitNL_sourcesBlock (urls : List String) (hne : urls ≠ [])
    (hnl : ∀ u ∈ urls, ∀ c ∈ u.data, c ≠ '\n') :
    splitNL (sourcesBlock urls).data =
      [[], [], "<b>Sources:</b>".data] ++ urls.map (fun u => (bulletMark ++ escape u).data) := by
  have hbullet : ∀ d ∈ bulletMark.data, d ≠ '\n' := by decide
  have hitems : ∀ x ∈ urls.map (fun u => bulletMark ++ escape u), ∀ c ∈ x.data, c ≠ '\n' := by
    intro x hx
    rw [List.mem_map] at hx
    rcases hx with ⟨u, hu, rfl⟩
    intro c hc
    rw [data_append, List.mem_append] at hc
    rcases hc with h1 | h2
    · exact hbullet c h1
    · exact escapeList_no_newline u.data (hnl u hu) c h2
  have hjoin : splitNL (joinSep "\n" (urls.map fun u => bulletMark ++ escape u)).data
      = (urls.map fun u => bulletMark ++ escape u).map String.data :=
    splitNL_joinSepNL _ (by simpa using hne) hitems
  have hlabel : ∀ d ∈ "<b>Sources:</b>".data, d ≠ '\n' := by decide
  have hdata : (sourcesBlock urls).data
      = '\n' :: '\n' :: ("<b>Sources:</b>".data
          ++ ('\n' :: (joinSep "\n" (urls.map fun u => bulletMark ++ escape u)).data)) := by
    rw [show sourcesBlock urls
        = "\n\n<b>Sources:</b>\n" ++ joinSep "\n" (urls.map fun u => bulletMark ++ escape u) from rfl,
      data_append]
    rfl
  rw [hdata, splitNL_cons_newline, splitNL_cons_newline,
    splitNL_append "<b>Sources:</b>".data _ hlabel,
    splitNL_cons_newline, hjoin]
  simp [List.map_map]

theorem lookup_cons_self (claim v : String) (cache : Cache) :
    List.lookup claim ((claim, v) :: cache) = some v := by
  simp [List.lookup]

theorem lookup_cons_ne {c2 claim : String} (v : String) (cache : Cache) (h : c2 ≠ claim) :
    List.lookup c2 ((claim, v) :: cache) = List.lookup c2 cache := by
  have hb : (c2 == claim) = false := beq_eq_false_iff_ne.mpr h
  simp [List.lookup, hb]

theorem fact_check_shape (cache : Cache) (claim : String) (env : Env) :
    ((fact_check cache claim env).cache = cache
      ∨ (fact_check cache claim env).cache
          = (claim, (fact_check cache claim env).result) :: cache)
    ∧ ((fact_check cache claim env).searchQuery = none
      ∨ (fact_check cache claim env).searchQuery = some claim) := by
  rcases hlk : List.lookup claim cache with _ | v
  · by_cases hev : pyStrip (search_web env.tavily claim).1 = ""
    · rw [fact_check_insuff_eq hlk hev]
      exact ⟨Or.inl rfl, Or.inr rfl⟩
    · rcases ho : env.openai with e | out
      · rw [fact_check_model_err hlk hev ho]
        exact ⟨Or.inl rfl, Or.inr rfl⟩
      · rw [fact_check_success hlk hev ho]
        exact ⟨Or.inr rfl, Or.inr rfl⟩
  · rw [fact_check_hit env hlk]
    exact ⟨Or.inl rfl, Or.inl rfl⟩

/-- Claim C2: on a cache miss whose retrieved evidence text is empty or
whitespace-only, `fact_check` does not invoke the model provider,
leaves the cache unchanged, and returns the fixed verdict text whose
label is exactly `Insufficient Evidence`, with confidence `0%` and the
canned explanation. -/
theorem C2_insufficient_evidence_short_circuit
    (cache : Cache) (claim : String) (env : Env)
    (hmiss : List.lookup claim cache = none)
    (hempty : pyStrip (search_web env.tavily claim).1 = "") :
    (fact_check cache claim env).result =
      "<b>Verdict:</b> Insufficient Evidence\n<b>Confidence:</b> 0%\n<b>Explanation:</b> No reliable sources found."
    ∧ (fact_check cache claim env).modelCalled = false
    ∧ (fact_check cache claim env).cache = cache := by
  rw [fact_check_insuff_eq hmiss hempty]
  exact ⟨rfl, rfl, rfl⟩

/-- Claim C2 witness: a concrete run in which the search provider raises, so
the retrieved evidence is empty and the fixed verdict is returned. -/
theorem C2_insufficient_evidence_short_circuit_witness :
    List.lookup "The moon is cheese" ([] : Cache) = none
    ∧ pyStrip (search_web envSearchDown.tavily "The moon is cheese").1 = ""
    ∧ ((fact_check [] "The moon is cheese" envSearchDown).result =
        "<b>Verdict:</b> Insufficient Evidence\n<b>Confidence:</b> 0%\n<b>Explanation:</b> No reliable sources found."
      ∧ (fact_check [] "The moon is cheese" envSearchDown).modelCalled = false
      ∧ (fact_check [] "The moon is cheese" envSearchDown).cache = []) :=
  ⟨rfl, by decide,
    C2_insufficient_evidence_short_circuit [] "The moon is cheese" envSearchDown rfl (by decide)⟩

/-- Claim C3: when the search provider answers and the assembled joined
evidence exceeds the 6000-character cap, the evidence returned by
`search_web` is the final joined string truncated to exactly 6000
characters with the literal marker appended: its length is
`6000 + truncMarker.length` and it ends with the marker. -/
theorem C3_evidence_cap (tav : String → Except String SearchResponse)
    (query : String) (resp : SearchResponse)
    (hresp : tav query = Except.ok resp)
    (hlong : MAX_EVIDENCE_LEN < (joinedEvidence resp).length) :
    (search_web tav query).1 = takeChars (joinedEvidence resp) MAX_EVIDENCE_LEN ++ truncMarker
    ∧ (search_web tav query).1.length = MAX_EVIDENCE_LEN + truncMarker.length
    ∧ ∃ p, (search_web tav query).1 = p ++ truncMarker := by
  have h1 : (search_web tav query).1
      = takeChars (joinedEvidence resp) MAX_EVIDENCE_LEN ++ truncMarker := by
    simp [search_web, hresp, capEvidence, hlong]
  refine ⟨h1, ?_, ⟨_, h1⟩⟩
  rw [h1, String.length_append]
  have h2 : (takeChars (joinedEvidence resp) MAX_EVIDENCE_LEN).length = MAX_EVIDENCE_LEN := by
    show ((joinedEvidence resp).data.take MAX_EVIDENCE_LEN).length = MAX_EVIDENCE_LEN
    rw [List.length_take]
    exact Nat.min_eq_left (Nat.le_of_lt hlong)
  rw [h2]

/-- Claim C3 witness: a concrete 6109-character joined evidence string gets
truncated to exactly `6000 + truncMarker.length` characters. -/
theorem C3_evidence_cap_witness :
    MAX_EVIDENCE_LEN < (joinedEvidence respLong).length
    ∧ ((search_web (fun _ => Except.ok respLong) "q").1
        = takeChars (joinedEvidence respLong) MAX_EVIDENCE_LEN ++ truncMarker
      ∧ (search_web (fun _ => Except.ok respLong) "q").1.length
          = MAX_EVIDENCE_LEN + truncMarker.length
      ∧ ∃ p, (search_web (fun _ => Except.ok respLong) "q").1 = p ++ truncMarker) := by
  have e1 : joinedEvidence respLong = "Summary: " ++ String.mk (List.replicate 6100 'a') := rfl
  have e2 : (String.mk (List.replicate 6100 'a')).length = 6100 := by
    show (List.replicate 6100 'a').length = 6100
    rw [List.length_replicate]
  have hlen : (joinedEvidence respLong).length = 6109 := by
    rw [e1, String.length_append, e2]
    decide
  have h : MAX_EVIDENCE_LEN < (joinedEvidence respLong).length := by
    rw [hlen]
    decide
  exact ⟨h, C3_evidence_cap (fun _ => Except.ok respLong) "q" respLong rfl h⟩

/-- Claim C4: `search_web` absorbs an exception raised by the search provider
on any query and returns the empty bundle: empty evidence text and an
empty url list. -/
theorem C4_search_failure_empty_bundle
    (tav : String → Except String SearchResponse) (query msg : String)
    (h : tav query = Except.error msg) :
    search_web tav query = ("", []) := by
  simp [search_web, h]

/-- Claim C4 witness: the always-raising search behaviour yields the empty
bundle on a concrete query. -/
theorem C4_search_failure_empty_bundle_witness :
    envSearchDown.tavily "Is water wet" = Except.error "network down"
    ∧ search_web envSearchDown.tavily "Is water wet" = ("", []) :=
  ⟨rfl, C4_search_failure_empty_bundle envSearchDown.tavily "Is water wet" "network down" rfl⟩

/-- Claim C1 counterexample: a first call that ends in the insufficient-evidence
branch stores nothing, so a second identical call invokes the search
provider again (its recorded query is `some "c"`, not `none`); the claim
that the second call invokes no provider for every outcome of the first
call is therefore false. -/
theorem C1_counterexample :
    (fact_check [] "c" envNoResults).result = insufficientVerdict
    ∧ (fact_check (fact_check [] "c" envNoResults).cache "c" envNoResults).searchQuery
        = some "c" :=
  ⟨rfl, rfl⟩

/-- Claim C1 (amended): with unchanged provider behaviour, a second
`fact_check` call on the same claim returns a result identical to the
first call's; moreover, whenever the first call's result is recorded in
the cache afterwards — which happens exactly on the cache-hit and
success paths, not on the insufficient-evidence or model-failure paths —
the second call, under any provider behaviour whatsoever, returns that
identical result while invoking neither the search provider nor the
model provider. -/
theorem C1_fact_check_idempotence (cache : Cache) (claim : String) (env env2 : Env) :
    (fact_check (fact_check cache claim env).cache claim env).result
      = (fact_check cache claim env).result
    ∧ (List.lookup claim (fact_check cache claim env).cache
          = some (fact_check cache claim env).result →
        fact_check (fact_check cache claim env).cache claim env2 =
          ⟨(fact_check cache claim env).result,
            (fact_check cache claim env).cache, none, false⟩) := by
  constructor
  · rcases hlk : List.lookup claim cache with _ | v
    · by_cases hev : pyStrip (search_web env.tavily claim).1 = ""
      · rw [fact_check_insuff_eq hlk hev, fact_check_insuff_eq hlk hev]
      · rcases ho : env.openai with e | out
        · rw [fact_check_model_err hlk hev ho, fact_check_model_err hlk hev ho]
        · simp only [fact_check_success hlk hev ho]
          rw [fact_check_hit env (lookup_cons_self claim _ cache)]
    · rw [fact_check_hit env hlk, fact_check_hit env hlk]
  · intro h
    exact fact_check_hit env2 h

/-- Claim C1 witness: after a success-path first call on claim `m`, a second
call — even with a dead search provider — is served from the cache. -/
theorem C1_fact_check_idempotence_witness :
    List.lookup "m" (fact_check [] "m" envMoon).cache
      = some (fact_check [] "m" envMoon).result
    ∧ fact_check (fact_check [] "m" envMoon).cache "m" envSearchDown =
        ⟨(fact_check [] "m" envMoon).result,
          (fact_check [] "m" envMoon).cache, none, false⟩ :=
  ⟨by decide, (C1_fact_check_idempotence [] "m" envMoon envSearchDown).2 (by decide)⟩

/-- Claim C5 counterexample: one second after the epoch a first-ever request
(no entry recorded for the user) is rejected by the gate, because the
absent entry reads as the epoch `0` and `1 - 0 < 5`; so a first-ever
request is not always allowed. -/
theorem C5_counterexample :
    List.lookup 0 ([] : RateState) = none ∧ rl_allow [] 0 1 = (false, []) := by
  refine ⟨rfl, ?_⟩
  have h : (1 : ℚ) - getLast [] 0 < RATE_LIMIT_SECONDS := by
    norm_num [getLast, RATE_LIMIT_SECONDS]
  simp [rl_allow, h]

/-- Claim C5 (amended): the gate rejects and leaves the state unchanged when
less than the 5-second cooldown elapsed since the user's recorded
timestamp — for a first-ever request the recorded timestamp reads as
the epoch `0`, so a first request is allowed exactly when its time is at
least `5`; it allows and records `now` when at least the cooldown
elapsed; consequently two calls less than the cooldown apart yield
`(allowed, rejected)` and two calls at least the cooldown apart yield
`(allowed, allowed)`. -/
theorem C5_rate_limit_gate (s : RateState) (u : Nat) (now : ℚ) :
    (now - getLast s u < RATE_LIMIT_SECONDS → rl_allow s u now = (false, s))
    ∧ (RATE_LIMIT_SECONDS ≤ now - getLast s u →
        rl_allow s u now = (true, setLast s u now)
        ∧ getLast (setLast s u now) u = now
        ∧ (∀ t2 : ℚ, t2 - now < RATE_LIMIT_SECONDS →
            rl_allow (setLast s u now) u t2 = (false, setLast s u now))
        ∧ (∀ t2 : ℚ, RATE_LIMIT_SECONDS ≤ t2 - now →
            (rl_allow (setLast s u now) u t2).1 = true))
    ∧ (List.lookup u s = none → RATE_LIMIT_SECONDS ≤ now →
        rl_allow s u now = (true, setLast s u now)) := by
  have hget : getLast (setLast s u now) u = now := by
    simp [getLast, setLast, List.lookup]
  refine ⟨fun h => by simp [rl_allow, h], fun h => ?_, fun hnone h5 => ?_⟩
  · have hna : ¬ now - getLast s u < RATE_LIMIT_SECONDS := not_lt.mpr h
    refine ⟨by simp [rl_allow, hna], hget, fun t2 ht2 => ?_, fun t2 ht2 => ?_⟩
    · simp [rl_allow, hget, ht2]
    · have hna2 : ¬ t2 - getLast (setLast s u now) u < RATE_LIMIT_SECONDS := by
        rw [hget]
        exact not_lt.mpr ht2
      simp [rl_allow, hna2]
  · have hzero : getLast s u = 0 := by simp [getLast, hnone]
    have hna : ¬ now - getLast s u < RATE_LIMIT_SECONDS := by
      rw [hzero]
      simpa using not_lt.mpr h5
    simp [rl_allow, hna]

/-- Claim C5 witness: user `0`, first call at time `10` is allowed and
recorded; a second call at `12` is rejected leaving the state unchanged;
a second call at `15` is allowed. -/
theorem C5_rate_limit_gate_witness :
    RATE_LIMIT_SECONDS ≤ (10 : ℚ) - getLast [] 0
    ∧ rl_allow [] 0 10 = (true, setLast [] 0 10)
    ∧ getLast (setLast [] 0 10) 0 = 10
    ∧ rl_allow (setLast [] 0 10) 0 12 = (false, setLast [] 0 10)
    ∧ (rl_allow (setLast [] 0 10) 0 15).1 = true := by
  have h : RATE_LIMIT_SECONDS ≤ (10 : ℚ) - getLast [] 0 := by
    norm_num [getLast, RATE_LIMIT_SECONDS]
  have h2 := (C5_rate_limit_gate [] 0 10).2.1 h
  exact ⟨h, h2.1, h2.2.1,
    h2.2.2.1 12 (by norm_num [RATE_LIMIT_SECONDS]),
    h2.2.2.2 15 (by norm_num [RATE_LIMIT_SECONDS])⟩

/-- Claim C10: a request that passes validation and the rate gate has the
user's timestamp recorded regardless of the orchestrator's outcome
(completion, timeout or unexpected error), so a failed or timed-out
fact-check consumes the 5-second cooldown exactly as a successful one:
any further request from that user less than 5 seconds later is
rejected by the gate. -/
theorem C10_cooldown_recorded_before_orchestrator
    (rate : RateState) (cache : Cache) (u : Nat) (text : Option String)
    (now : ℚ) (beh : FCBehavior)
    (h0 : pyStrip (text.getD "") ≠ "")
    (h1 : ¬ MAX_INPUT_LEN < (pyStrip (text.getD "")).length)
    (h2 : ¬ now - getLast rate u < RATE_LIMIT_SECONDS) :
    (handle_message rate cache u text now beh).rate = setLast rate u now
    ∧ getLast (handle_message rate cache u text now beh).rate u = now
    ∧ ∀ t2 : ℚ, t2 - now < RATE_LIMIT_SECONDS →
        (rl_allow (handle_message rate cache u text now beh).rate u t2).1 = false := by
  have hr : (handle_message rate cache u text now beh).rate = setLast rate u now := by
    cases beh with
    | completes env => rw [handle_message_completes env h0 h1 h2]
    | timesOut => rw [handle_message_timesOut h0 h1 h2]
    | unexpectedErr => rw [handle_message_unexpected h0 h1 h2]
  have hg : getLast (setLast rate u now) u = now := by
    simp [getLast, setLast, List.lookup]
  refine ⟨hr, by rw [hr, hg], fun t2 ht2 => ?_⟩
  rw [hr]
  simp [rl_allow, hg, ht2]

/-- Claim C10 witness: a request at time `10` whose fact-check times out still
records the timestamp, and a follow-up at `12` is rejected by the gate. -/
theorem C10_cooldown_recorded_before_orchestrator_witness :
    pyStrip ((some "hi").getD "") ≠ ""
    ∧ ¬ MAX_INPUT_LEN < (pyStrip ((some "hi").getD "")).length
    ∧ ¬ (10 : ℚ) - getLast [] 1 < RATE_LIMIT_SECONDS
    ∧ (handle_message [] [] 1 (some "hi") 10 FCBehavior.timesOut).rate = setLast [] 1 10
    ∧ (rl_allow (handle_message [] [] 1 (some "hi") 10 FCBehavior.timesOut).rate 1 12).1
        = false := by
  have h0 : pyStrip ((some "hi").getD "") ≠ "" := by decide
  have h1 : ¬ MAX_INPUT_LEN < (pyStrip ((some "hi").getD "")).length := by decide
  have h2 : ¬ (10 : ℚ) - getLast [] 1 < RATE_LIMIT_SECONDS := by
    norm_num [getLast, RATE_LIMIT_SECONDS]
  have h := C10_cooldown_recorded_before_orchestrator [] [] 1 (some "hi") 10
    FCBehavior.timesOut h0 h1 h2
  exact ⟨h0, h1, h2, h.1, h.2.2 12 (by norm_num [RATE_LIMIT_SECONDS])⟩

set_option maxRecDepth 20000 in
/-- Claim C9 counterexample: a message whose raw text has 502 characters (so it
is longer than 500 characters) but strips to 499 is not rejected: the
rate gate runs and records the timestamp and the orchestrator is
invoked, contradicting the claim for raw over-length messages. -/
theorem C9_counterexample :
    MAX_INPUT_LEN < longRawText.length
    ∧ (handle_message [] [] 1 (some longRawText) 10 FCBehavior.timesOut).orchCalled = true
    ∧ (handle_message [] [] 1 (some longRawText) 10 FCBehavior.timesOut).rate = [(1, 10)] := by
  have h0 : pyStrip ((some longRawText).getD "") ≠ "" := by decide
  have h1 : ¬ MAX_INPUT_LEN < (pyStrip ((some longRawText).getD "")).length := by decide
  have h2 : ¬ (10 : ℚ) - getLast [] 1 < RATE_LIMIT_SECONDS := by
    norm_num [getLast, RATE_LIMIT_SECONDS]
  rw [handle_message_timesOut h0 h1 h2]
  exact ⟨by decide, rfl, rfl⟩

/-- Claim C9 (amended): a message that is empty after stripping, or whose
stripped text is longer than 500 characters, is rejected immediately:
the reply is one of the two fixed rejection messages, the rate state and
the cache are unchanged, the orchestrator is not invoked, and the
outcome does not depend on the time of the call or on the orchestrator's
would-be behaviour (the rate gate is never consulted). -/
theorem C9_invalid_input_rejected
    (rate : RateState) (cache : Cache) (u : Nat) (text : Option String)
    (now : ℚ) (beh : FCBehavior)
    (h : pyStrip (text.getD "") = "" ∨ MAX_INPUT_LEN < (pyStrip (text.getD "")).length) :
    (handle_message rate cache u text now beh).rate = rate
    ∧ (handle_message rate cache u text now beh).cache = cache
    ∧ (handle_message rate cache u text now beh).orchCalled = false
    ∧ ((handle_message rate cache u text now beh).reply = HReply.sent invalidClaimMsg
      ∨ (handle_message rate cache u text now beh).reply = HReply.sent tooLongMsg)
    ∧ ∀ (now2 : ℚ) (beh2 : FCBehavior),
        handle_message rate cache u text now2 beh2 = handle_message rate cache u text now beh := by
  rcases h with h | h
  · rw [handle_message_empty now beh h]
    refine ⟨rfl, rfl, rfl, Or.inl rfl, fun now2 beh2 => ?_⟩
    rw [handle_message_empty now2 beh2 h]
  · have h0 : pyStrip (text.getD "") ≠ "" := by
      intro heq
      rw [heq] at h
      exact absurd h (by decide)
    rw [handle_message_tooLong now beh h0 h]
    refine ⟨rfl, rfl, rfl, Or.inr rfl, fun now2 beh2 => ?_⟩
    rw [handle_message_tooLong now2 beh2 h0 h]

/-- Claim C9 witness: a whitespace-only message is rejected with the fixed
invalid-claim reply and no state change. -/
theorem C9_invalid_input_rejected_witness :
    (pyStrip ((some "   ").getD "") = ""
      ∨ MAX_INPUT_LEN < (pyStrip ((some "   ").getD "")).length)
    ∧ (handle_message [] [] 1 (some "   ") 3 FCBehavior.unexpectedErr).rate = []
    ∧ (handle_message [] [] 1 (some "   ") 3 FCBehavior.unexpectedErr).cache = []
    ∧ (handle_message [] [] 1 (some "   ") 3 FCBehavior.unexpectedErr).orchCalled = false
    ∧ ((handle_message [] [] 1 (some "   ") 3 FCBehavior.unexpectedErr).reply
          = HReply.sent invalidClaimMsg
      ∨ (handle_message [] [] 1 (some "   ") 3 FCBehavior.unexpectedErr).reply
          = HReply.sent tooLongMsg) := by
  have h : pyStrip ((some "   ").getD "") = ""
      ∨ MAX_INPUT_LEN < (pyStrip ((some "   ").getD "")).length := Or.inl (by decide)
  have hh := C9_invalid_input_rejected [] [] 1 (some "   ") 3 FCBehavior.unexpectedErr h
  exact ⟨h, hh.1, hh.2.1, hh.2.2.1, hh.2.2.2.1⟩

/-- Claim C8 counterexample: the handler strips the raw message text before
using it, so the textually distinct raw messages are not all distinct
cache entries: processing the raw message with a trailing blank stores
the entry under the stripped string, not under the raw string, and a
later textually different message stripping to the same string is
served from that same entry even with a dead search provider. -/
theorem C8_counterexample :
    List.lookup "cats fly "
        (handle_message [] [] 1 (some "cats fly ") 10 (FCBehavior.completes envMoon)).cache
      = none
    ∧ List.lookup "cats fly"
        (handle_message [] [] 1 (some "cats fly ") 10 (FCBehavior.completes envMoon)).cache
      = some (fact_check [] "cats fly" envMoon).result
    ∧ (handle_message
        (handle_message [] [] 1 (some "cats fly ") 10 (FCBehavior.completes envMoon)).rate
        (handle_message [] [] 1 (some "cats fly ") 10 (FCBehavior.completes envMoon)).cache
        2 (some "cats fly") 10 (FCBehavior.completes envSearchDown)).reply
      = HReply.edited (fact_check [] "cats fly" envMoon).result := by
  have h0 : pyStrip ((some "cats fly ").getD "") ≠ "" := by decide
  have h1 : ¬ MAX_INPUT_LEN < (pyStrip ((some "cats fly ").getD "")).length := by decide
  have h2 : ¬ (10 : ℚ) - getLast [] 1 < RATE_LIMIT_SECONDS := by
    norm_num [getLast, RATE_LIMIT_SECONDS]
  rw [handle_message_completes envMoon h0 h1 h2]
  have hstrip : pyStrip ((some "cats fly ").getD "") = "cats fly" := by decide
  rw [hstrip]
  refine ⟨by decide, by decide, ?_⟩
  have h0b : pyStrip ((some "cats fly").getD "") ≠ "" := by decide
  have h1b : ¬ MAX_INPUT_LEN < (pyStrip ((some "cats fly").getD "")).length := by decide
  have h2b : ¬ (10 : ℚ) - getLast (setLast [] 1 10) 2 < RATE_LIMIT_SECONDS := by
    have hz : getLast (setLast [] 1 10) 2 = 0 := by decide
    rw [hz]
    norm_num [RATE_LIMIT_SECONDS]
  rw [handle_message_completes envSearchDown h0b h1b h2b]
  have hstripb : pyStrip ((some "cats fly").getD "") = "cats fly" := by decide
  rw [hstripb]
  have hhit : List.lookup "cats fly" (fact_check [] "cats fly" envMoon).cache
      = some (fact_check [] "cats fly" envMoon).result := by decide
  rw [fact_check_hit envSearchDown hhit]

/-- Claim C8 (amended): the handler uses the whitespace-stripped message text
and from there no other normalization is applied: the stripped claim is
what the orchestrator runs on, it is sent verbatim as the search query
(when the search provider is invoked at all), and it is the only key
whose cache entry the call can create — every other key's entry is left
exactly as it was, so two claims distinct after stripping are distinct
cache entries. -/
theorem C8_claim_used_verbatim
    (rate : RateState) (cache : Cache) (u : Nat) (text : Option String)
    (now : ℚ) (env : Env)
    (h0 : pyStrip (text.getD "") ≠ "")
    (h1 : ¬ MAX_INPUT_LEN < (pyStrip (text.getD "")).length)
    (h2 : ¬ now - getLast rate u < RATE_LIMIT_SECONDS) :
    (handle_message rate cache u text now (FCBehavior.completes env)).cache
      = (fact_check cache (pyStrip (text.getD "")) env).cache
    ∧ ((fact_check cache (pyStrip (text.getD "")) env).searchQuery = none
      ∨ (fact_check cache (pyStrip (text.getD "")) env).searchQuery
          = some (pyStrip (text.getD "")))
    ∧ ∀ c2, c2 ≠ pyStrip (text.getD "") →
        List.lookup c2 (fact_check cache (pyStrip (text.getD "")) env).cache
          = List.lookup c2 cache := by
  refine ⟨by rw [handle_message_completes env h0 h1 h2], (fact_check_shape cache _ env).2, ?_⟩
  intro c2 hc2
  rcases (fact_check_shape cache (pyStrip (text.getD "")) env).1 with hsame | hcons
  · rw [hsame]
  · rw [hcons, lookup_cons_ne _ cache hc2]

/-- Claim C8 witness: a message with surrounding blanks runs on its stripped
text, and the entry under a different key is untouched. -/
theorem C8_claim_used_verbatim_witness :
    pyStrip ((some " hello ").getD "") ≠ ""
    ∧ ¬ MAX_INPUT_LEN < (pyStrip ((some " hello ").getD "")).length
    ∧ ¬ (10 : ℚ) - getLast [] 1 < RATE_LIMIT_SECONDS
    ∧ (handle_message [] [("other", "v")] 1 (some " hello ") 10
          (FCBehavior.completes envMoon)).cache
        = (fact_check [("other", "v")] (pyStrip ((some " hello ").getD "")) envMoon).cache
    ∧ List.lookup "other"
        (fact_check [("other", "v")] (pyStrip ((some " hello ").getD "")) envMoon).cache
      = some "v" := by
  have h0 : pyStrip ((some " hello ").getD "") ≠ "" := by decide
  have h1 : ¬ MAX_INPUT_LEN < (pyStrip ((some " hello ").getD "")).length := by decide
  have h2 : ¬ (10 : ℚ) - getLast [] 1 < RATE_LIMIT_SECONDS := by
    norm_num [getLast, RATE_LIMIT_SECONDS]
  have hh := C8_claim_used_verbatim [] [("other", "v")] 1 (some " hello ") 10 envMoon h0 h1 h2
  refine ⟨h0, h1, h2, hh.1, ?_⟩
  rw [hh.2.2 "other" (by decide)]
  decide

/-- Claim C6 counterexample: a search response carrying one url but no content
yields a non-empty url list with empty evidence text, so `fact_check`
returns the insufficient-evidence verdict, which contains no `Sources:`
section at all — refuting the claim for every call whose bundle carries
urls. -/
theorem C6_counterexample :
    (search_web envUrlOnly.tavily "c").2 = ["https://example.com/a"]
    ∧ (fact_check [] "c" envUrlOnly).result = insufficientVerdict
    ∧ hasSub (fact_check [] "c" envUrlOnly).result "Sources:" = false := by
  refine ⟨rfl, rfl, ?_⟩
  decide

/-- Claim C6 (amended): on the success path (cache miss, non-empty evidence,
successful model call), when the evidence bundle carries no url the
rendered verdict is exactly the stripped model output with nothing
appended; when it carries urls the rendered verdict is the stripped
model output followed by the sources section, and — whenever no url
contains a newline — the section's line structure is exactly: two blank
lines, the `Sources:` header line, then exactly one bullet-prefixed
HTML-escaped url per line, preserving retrieval order and duplicates
(`N` urls give `N` bullet lines). -/
theorem C6_sources_section
    (cache : Cache) (claim : String) (env : Env) (out : String)
    (hmiss : List.lookup claim cache = none)
    (hne : pyStrip (search_web env.tavily claim).1 ≠ "")
    (hok : env.openai = Except.ok out) :
    ((search_web env.tavily claim).2 = [] →
      (fact_check cache claim env).result = pyStrip out)
    ∧ ((search_web env.tavily claim).2 ≠ [] →
        (fact_check cache claim env).result
          = pyStrip out ++ sourcesBlock (search_web env.tavily claim).2)
    ∧ ((search_web env.tavily claim).2 ≠ [] →
        (∀ u ∈ (search_web env.tavily claim).2, ∀ c ∈ u.data, c ≠ '\n') →
        splitNL (sourcesBlock (search_web env.tavily claim).2).data
            = [[], [], "<b>Sources:</b>".data]
              ++ ((search_web env.tavily claim).2.map fun u => (bulletMark ++ escape u).data)
        ∧ ((search_web env.tavily claim).2.map fun u => (bulletMark ++ escape u).data).length
            = (search_web env.tavily claim).2.length) := by
  refine ⟨fun hnil => ?_, fun hcons => ?_, fun hcons hnl => ?_⟩
  · simp only [fact_check_success hmiss hne hok]
    rw [renderVerdict, if_pos hnil]
  · simp only [fact_check_success hmiss hne hok]
    rw [renderVerdict, if_neg hcons]
  · exact ⟨splitNL_sourcesBlock _ hcons hnl, List.length_map _ _⟩

/-- Claim C6 witness: the success-path verdict on `envMoon` appends a sources
section whose lines are the header and exactly one bullet line with the
escaped url. -/
theorem C6_sources_section_witness :
    List.lookup "m2" ([] : Cache) = none
    ∧ pyStrip (search_web envMoon.tavily "m2").1 ≠ ""
    ∧ envMoon.openai = Except.ok "<b>Verdict:</b> False"
    ∧ (search_web envMoon.tavily "m2").2 ≠ []
    ∧ (fact_check [] "m2" envMoon).result
        = pyStrip "<b>Verdict:</b> False" ++ sourcesBlock (search_web envMoon.tavily "m2").2
    ∧ splitNL (sourcesBlock (search_web envMoon.tavily "m2").2).data
        = [[], [], "<b>Sources:</b>".data]
          ++ ((search_web envMoon.tavily "m2").2.map fun u => (bulletMark ++ escape u).data) := by
  have h := C6_sources_section [] "m2" envMoon "<b>Verdict:</b> False" rfl (by decide) rfl
  have hcons : (search_web envMoon.tavily "m2").2 ≠ [] := by decide
  have hnl : ∀ u ∈ (search_web envMoon.tavily "m2").2, ∀ c ∈ u.data, c ≠ '\n' := by decide
  exact ⟨rfl, by decide, rfl, hcons, h.2.1 hcons, (h.2.2 hcons hnl).1⟩

/-- Claim C7 counterexample: when the model's successful output is, verbatim,
the fixed failure text, that text is rendered and stored, so the cache
then contains the model-failure message as an entry. -/
theorem C7_counterexample :
    (fact_check [] "c" envOutputsFailText).cache = [("c", aiFailedMsg)] := by
  decide

/-- Claim C7 (amended): `fact_check` writes to the cache only on the success
path: every call leaves the cache unchanged or prepends exactly the
entry `(claim, returned text)` after a successful model call; on a model
failure it returns the fixed failure message and leaves the cache
unchanged (so the fixed failure, timeout and unexpected-error texts can
appear as cache values only as verbatim successful model output). -/
theorem C7_cache_only_success (cache : Cache) (claim : String) (env : Env) :
    ((fact_check cache claim env).cache = cache
      ∨ ∃ out, env.openai = Except.ok out
          ∧ (fact_check cache claim env).cache
              = (claim, (fact_check cache claim env).result) :: cache)
    ∧ (∀ e, env.openai = Except.error e →
        List.lookup claim cache = none →
        pyStrip (search_web env.tavily claim).1 ≠ "" →
        (fact_check cache claim env).result = aiFailedMsg
        ∧ (fact_check cache claim env).cache = cache) := by
  constructor
  · rcases hlk : List.lookup claim cache with _ | v
    · by_cases hev : pyStrip (search_web env.tavily claim).1 = ""
      · rw [fact_check_insuff_eq hlk hev]
        exact Or.inl rfl
      · rcases ho : env.openai with e | out
        · rw [fact_check_model_err hlk hev ho]
          exact Or.inl rfl
        · rw [fact_check_success hlk hev ho]
          exact Or.inr ⟨out, ho ▸ rfl, rfl⟩
    · rw [fact_check_hit env hlk]
      exact Or.inl rfl
  · intro e he hlk hev
    rw [fact_check_model_err hlk hev he]
    exact ⟨rfl, rfl⟩

/-- Claim C7 witness: a failing model call returns the fixed failure message
and leaves the (empty) cache empty. -/
theorem C7_cache_only_success_witness :
    envModelDown.openai = Except.error "model down"
    ∧ List.lookup "c" ([] : Cache) = none
    ∧ pyStrip (search_web envModelDown.tavily "c").1 ≠ ""
    ∧ (fact_check [] "c" envModelDown).result = aiFailedMsg
    ∧ (fact_check [] "c" envModelDown).cache = [] := by
  have h := (C7_cache_only_success [] "c" envModelDown).2 "model down" rfl rfl (by decide)
  exact ⟨rfl, rfl, by decide, h.1, h.2⟩
